import Mathlib

/-!
Shallow embedding of `src/main.py`: a small Flask facade over the
`hyundai_kia_connect_api` `VehicleManager`.

The behaviour of the external library (whether authentication, state
refresh and remote commands succeed or raise, which constructor shape
`ClimateRequestOptions` has, which attributes a vehicle object exposes)
is supplied by explicit environment parameters.  The control flow of the
handlers, the environment-variable validation, the retry loop, the
request-body parsing, the duration clamp, the precondition logic and the
error-message formatting are translated directly from the source.
-/

/-- A Python exception as observed by the handlers in `main.py`:
its `str()` rendering and an optional (truthy) `response` attribute. -/
structure PyExc where
  msg : String
  response : Option String
deriving Repr, DecidableEq

/-- Python truthiness of an optional string (`None` and `""` are falsy). -/
def truthyStr : Option String → Bool
| none => false
| some s => !(s == "")

/-- The part of a `VehicleManager` the handlers observe: the keys of its
`vehicles` mapping, in iteration order. -/
structure VM where
  vehicles : List String
deriving Repr, DecidableEq

/-- The module-level mutable globals of `main.py`:
`vehicle_manager`, `init_error` and `VEHICLE_ID`. -/
structure AppState where
  vehicle_manager : Option VM
  init_error : Option String
  vehicle_id : Option String
deriving Repr, DecidableEq

/-- A region/brand candidate as produced by `_resolve_region_brand`. -/
abbrev Cand := Int × Int

/-- Outcome of one `(attempt, candidate)` trial of the init loop in
`_init_vehicle_manager`: either some stage raised (constructor, token
refresh, state update), or construction, authentication and the state
refresh all succeeded, returning the keys of `vm.vehicles`. -/
inductive TrialOutcome
| throws (msg : String)
| auth (vehicles : List String)
deriving Repr, DecidableEq

/-- The message of the `RuntimeError` raised at `main.py` line 103. -/
def noVehiclesMsg : String :=
  "Authenticated but no vehicles were returned by the API."

/-- The credential environment variables read at module load. -/
structure Config where
  username : Option String
  password : Option String
  pin : Option String
deriving Repr, DecidableEq

/-- `main.py` lines 77-81: the ordered list of missing credential
environment variables (dict iteration order, Python truthiness). -/
def missingVars (c : Config) : List String :=
  (if truthyStr c.username then [] else ["KIA_USERNAME"]) ++
  (if truthyStr c.password then [] else ["KIA_PASSWORD"]) ++
  (if truthyStr c.pin then [] else ["KIA_PIN"])

/-- `_resolve_region_brand`: zero or more enum-derived candidates,
followed by the numeric fallback, which is appended unconditionally. -/
def resolveRegionBrand (enumCands : List Cand) (fb : Cand) : List Cand :=
  enumCands ++ [fb]

/-- The flattened retry loop of `_init_vehicle_manager` (attempts 1 and 2,
each over all candidates, in order), stopping at the first successful
trial.  Every raised exception — including the empty-vehicle
`RuntimeError` — is caught, recorded in `last_err`, and the loop moves
on.  Returns the vehicle keys on success, the final `last_err`, and the
number of trials actually performed. -/
def runTrialList : List TrialOutcome → Option String →
    Option (List String) × Option String × Nat
| [], lastErr => (none, lastErr, 0)
| t :: ts, lastErr =>
  match t with
  | .throws m =>
      let r := runTrialList ts (some m)
      (r.1, r.2.1, r.2.2 + 1)
  | .auth [] =>
      let r := runTrialList ts (some noVehiclesMsg)
      (r.1, r.2.1, r.2.2 + 1)
  | .auth (h :: tl) => (some (h :: tl), lastErr, 1)

/-- Python `str(last_err)` as interpolated into the final error string. -/
def strOfLastErr : Option String → String
| none => "None"
| some m => m

/-- Result of `_init_vehicle_manager`: the updated globals and the number
of remote initialization trials performed. -/
structure InitOut where
  st : AppState
  trials : Nat
deriving Repr, DecidableEq

/-- `_init_vehicle_manager` (`main.py` lines 70-136).  Returns at once if
a manager is cached; otherwise validates credentials (listing every
missing variable), then runs two attempts over all region/brand
candidates, each trial represented by `ienv` at its flattened index.  A
successful trial with a nonempty vehicle set caches the manager, clears
`init_error` and fills `VEHICLE_ID` if it was falsy; exhaustion caches
the wrapped failure message. -/
def initVehicleManager (cfg : Config) (st : AppState) (enumCands : List Cand)
    (fb : Cand) (ienv : Nat → TrialOutcome) : InitOut :=
  if st.vehicle_manager.isSome then ⟨st, 0⟩
  else if !(missingVars cfg).isEmpty then
    ⟨{ st with init_error := some ("Missing required env vars: " ++ String.intercalate ", " (missingVars cfg)) }, 0⟩
  else
    let cands := resolveRegionBrand enumCands fb
    let trials := (List.range (2 * cands.length)).map ienv
    match runTrialList trials none with
    | (some vs, _, n) =>
        ⟨{ vehicle_manager := some ⟨vs⟩
           init_error := none
           vehicle_id := if truthyStr st.vehicle_id then st.vehicle_id else vs.head? }, n⟩
    | (none, lastErr, n) =>
        ⟨{ st with init_error := some ("Initialization failed after retries: " ++ strOfLastErr lastErr) }, n⟩

/-- Python `x or default` for the message picked in `ensure_initialized`. -/
def orElsePy (o : Option String) (d : String) : String :=
  match o with
  | some s => if s == "" then d else s
  | none => d

/-- Result of `ensure_initialized`. -/
structure EnsureOut where
  ok : Bool
  msg : String
  st : AppState
  trials : Nat
deriving Repr, DecidableEq

/-- `ensure_initialized` (`main.py` lines 139-143). -/
def ensureInitialized (cfg : Config) (st : AppState) (enumCands : List Cand)
    (fb : Cand) (ienv : Nat → TrialOutcome) : EnsureOut :=
  let r := initVehicleManager cfg st enumCands fb ienv
  if r.st.vehicle_manager.isSome then ⟨true, "ok", r.st, r.trials⟩
  else ⟨false, orElsePy r.st.init_error "Initialization did not complete.",
        r.st, r.trials⟩

/-- A gear value as the library may report it (string or number). -/
inductive GearVal
| strv (s : String)
| numv (n : Int)
deriving Repr, DecidableEq

/-- Python truthiness of a gear value. -/
def GearVal.truthy : GearVal → Bool
| .strv s => !(s == "")
| .numv n => !(n == 0)

/-- The attributes `_vehicle_state_snapshot` probes on the library
vehicle object; `none` stands for a missing attribute (the `getattr`
default) or an attribute holding `None`. -/
structure Vehicle where
  is_locked : Option Bool
  is_any_door_open : Option Bool
  door_open : Option Bool
  hood_open : Option Bool
  is_hood_open : Option Bool
  trunk_open : Option Bool
  is_trunk_open : Option Bool
  is_tailgate_open : Option Bool
  ignition_on : Option Bool
  engine_on : Option Bool
  gear : Option GearVal
  transmission_gear : Option GearVal
  gear_position : Option GearVal
deriving Repr, DecidableEq

/-- Python `a or b` on optional booleans: `a` when truthy, else `b`. -/
def orB (a b : Option Bool) : Option Bool :=
  if a == some true then a else b

/-- Python `a or b` on optional gear values. -/
def orG (a b : Option GearVal) : Option GearVal :=
  match a with
  | some g => if g.truthy then some g else b
  | none => b

/-- The dictionary built by `_vehicle_state_snapshot`. -/
structure Snap where
  locked : Option Bool
  any_door_open : Option Bool
  hood_open : Option Bool
  trunk_open : Option Bool
  ignition_on : Option Bool
  gear : Option GearVal
deriving Repr, DecidableEq

/-- `_vehicle_state_snapshot` (`main.py` lines 286-294). -/
def vehicleStateSnapshot (v : Vehicle) : Snap :=
  { locked := v.is_locked
    any_door_open := orB v.is_any_door_open v.door_open
    hood_open := orB v.hood_open v.is_hood_open
    trunk_open := orB (orB v.trunk_open v.is_trunk_open) v.is_tailgate_open
    ignition_on := orB v.ignition_on v.engine_on
    gear := orG (orG v.gear v.transmission_gear) v.gear_position }

/-- `main.py` line 318: `gear not in (None, "P", "Park", "park", 0)`
negated — the gear values accepted as Park-equivalent. -/
def gearAcceptable : Option GearVal → Bool
| none => true
| some (.strv s) => s == "P" || s == "Park" || s == "park"
| some (.numv n) => n == 0

/-- Result of `_preflight`: the violation list, the snapshot as finally
consulted, and whether the best-effort lock call was issued. -/
structure PreflightOut where
  missing : List String
  snap : Snap
  lockAttempted : Bool
deriving Repr, DecidableEq

/-- `_preflight` (`main.py` lines 296-320).  When the snapshot reports
`locked = False` one lock call is attempted; on success the local
snapshot entry is overwritten to `True`, on failure the exception is
swallowed and the entry stays `False`.  No re-read of vehicle state
occurs; the remaining checks run on the same snapshot. -/
def preflight (s : Snap) (lockOk : Bool) : PreflightOut :=
  let att := s.locked == some false
  let s1 := if att && lockOk then { s with locked := some true } else s
  let missing :=
    (if s1.locked == some false then ["Doors must be locked"] else []) ++
    (if s1.any_door_open == some true then ["All doors must be closed"] else []) ++
    (if s1.hood_open == some true then ["Hood must be closed"] else []) ++
    (if s1.trunk_open == some true then ["Trunk/tailgate must be closed"] else []) ++
    (if s1.ignition_on == some true then ["Ignition/ACC must be off"] else []) ++
    (if gearAcceptable s1.gear then [] else ["Transmission must be in Park"])
  ⟨missing, s1, att⟩

/-- The `duration` field of the request body as JSON delivers it:
absent, present but not convertible by `int(...)`, or an integer. -/
inductive DurField
| absent
| unparsable
| intVal (n : Int)
deriving Repr, DecidableEq

/-- The `temperature` field of the request body: absent (the
unit-dependent default applies), an explicit JSON `null`, or a number. -/
inductive TempField
| absent
| nullVal
| numVal (t : Int)
deriving Repr, DecidableEq

/-- The request body of `/start_climate`. -/
structure Body where
  duration : DurField
  defrost : Bool
  temperature : TempField
  force : Bool
deriving Repr, DecidableEq

/-- `int(body.get("duration", 10))` with any exception mapped to 10
(`main.py` lines 262-265). -/
def parseDuration : DurField → Int
| .absent => 10
| .unparsable => 10
| .intVal n => n

/-- `duration = max(1, min(duration, 30))` (`main.py` line 266). -/
def clampDuration (d : Int) : Int := max 1 (min d 30)

/-- `72 if temp_env_units == "F" else 22` (`main.py` line 270). -/
def defaultTemp (unitsF : Bool) : Int := if unitsF then 72 else 22

/-- `body.get("temperature", default_temp)` (`main.py` line 271). -/
def tempOf (b : Body) (unitsF : Bool) : Option Int :=
  match b.temperature with
  | .absent => some (defaultTemp unitsF)
  | .nullVal => none
  | .numVal t => some t

/-- A `ClimateRequestOptions` object as `main.py` builds it: the newer
keyword constructor (which also sets `climate=True, heating=True` and
`set_temp`), or the older two-positional constructor with the
temperature applied afterwards via `_apply_temperature` when a matching
attribute exists. -/
inductive COpts
| newStyle (duration : Int) (defrost : Bool) (set_temp : Option Int)
| oldStyle (duration : Int) (defrost : Bool) (applied_temp : Option Int)
deriving Repr, DecidableEq

/-- The duration carried by an options object. -/
def COpts.dur : COpts → Int
| .newStyle d _ _ => d
| .oldStyle d _ _ => d

/-- `_apply_temperature` on an old-style options object: the value lands
only when the object exposes one of the probed attribute names and the
value is not `None` (`main.py` lines 274-284). -/
def applyTemperature (tempAttr : Bool) (t : Option Int) : Option Int :=
  if tempAttr then t else none

/-- The options passed to the primary start call (`main.py` lines
338-350): new-style keyword constructor when the library accepts it,
else the old positional constructor plus `_apply_temperature`. -/
def buildOpts (newCtor tempAttr : Bool) (d : Int) (df : Bool)
    (t : Option Int) : COpts :=
  if newCtor then .newStyle d df t else .oldStyle d df (applyTemperature tempAttr t)

/-- The remote calls a handler issues through the manager, in order. -/
inductive Call
| refreshToken
| updateState
| lockCall (vid : String)
| unlockCall (vid : String)
| startClimateCall (vid : String) (opts : COpts)
| stopClimateCall (vid : String)
deriving Repr, DecidableEq

/-- `VEHICLE_ID` as it appears in messages and calls (`str` of the
global, `"None"` when unset). -/
def vidOf (st : AppState) : String :=
  match st.vehicle_id with
  | some s => s
  | none => "None"

/-- Environment for one `/start_climate` request: the unit selector, the
outcome of each remote interaction, and the library shape flags. -/
structure ClimateEnv where
  unitsF : Bool
  refreshOk : Bool
  updateOk : Bool
  vehicle : Option Vehicle
  lockOk : Bool
  newCtor : Bool
  tempAttr : Bool
  primary : Option PyExc
  fallback : Option PyExc
deriving Repr, DecidableEq

/-- The response of `/start_climate`, by shape. -/
inductive CResp
| initErr (msg : String)
| precheckErr
| notFound (vid : String)
| precond (missing : List String) (snap : Snap)
| started (opts : COpts) (fallbackUsed : Bool)
| cmdFail (detail : String) (dbgDuration : Int) (dbgDefrost : Bool)
    (dbgTemp : Option Int)
deriving Repr, DecidableEq

/-- What a handler produces: a response, the remote calls issued through
the manager (init trials counted separately), and the final globals. -/
structure RouteOut (ρ : Type) where
  resp : ρ
  calls : List Call
  st : AppState
deriving Repr, DecidableEq

/-- `getattr(e2, "response", None) or getattr(e1, "response", None) or
str(e2)` (`main.py` line 369): a single detail, by preference. -/
def pickDetail (e2 e1 : PyExc) : String :=
  match e2.response with
  | some r => r
  | none =>
    match e1.response with
    | some r => r
    | none => e2.msg

/-- `/start_climate` (`main.py` lines 255-378). -/
def startClimateRoute (cfg : Config) (st : AppState) (enumCands : List Cand)
    (fb : Cand) (ienv : Nat → TrialOutcome) (body : Body)
    (env : ClimateEnv) : RouteOut CResp :=
  let e := ensureInitialized cfg st enumCands fb ienv
  if !e.ok then ⟨.initErr e.msg, [], e.st⟩
  else
    let vid := vidOf e.st
    let duration := clampDuration (parseDuration body.duration)
    let defrost := body.defrost
    let temperature := tempOf body env.unitsF
    if !env.refreshOk then ⟨.precheckErr, [.refreshToken], e.st⟩
    else if !env.updateOk then ⟨.precheckErr, [.refreshToken, .updateState], e.st⟩
    else
      match env.vehicle with
      | none => ⟨.notFound vid, [.refreshToken, .updateState], e.st⟩
      | some v =>
        let base := [Call.refreshToken, Call.updateState]
        let pf := preflight (vehicleStateSnapshot v) env.lockOk
        let preCalls :=
          if body.force then []
          else if pf.lockAttempted then [Call.lockCall vid] else []
        if !body.force && !pf.missing.isEmpty then
          ⟨.precond pf.missing pf.snap, base ++ preCalls, e.st⟩
        else
          let opts1 := buildOpts env.newCtor env.tempAttr duration defrost temperature
          let calls1 := base ++ preCalls ++ [Call.startClimateCall vid opts1]
          match env.primary with
          | none => ⟨.started opts1 false, calls1, e.st⟩
          | some e1 =>
            let opts2 := COpts.oldStyle 5 false (applyTemperature env.tempAttr temperature)
            let calls2 := calls1 ++ [Call.startClimateCall vid opts2]
            match env.fallback with
            | none => ⟨.started opts2 true, calls2, e.st⟩
            | some e2 =>
              ⟨.cmdFail (pickDetail e2 e1) duration defrost temperature, calls2, e.st⟩

/-- Environment for the simple command handlers. -/
structure CmdEnv where
  refreshOk : Bool
  updateOk : Bool
  vehicle : Option Vehicle
  cmd : Option PyExc
deriving Repr, DecidableEq

/-- Responses of the simple handlers. -/
inductive SResp
| initErr (msg : String)
| failed (tag : String)
| notFound (vid : String)
| okTag (tag : String)
deriving Repr, DecidableEq

/-- `/status` (`main.py` lines 198-222): refreshes cached state and looks
the configured vehicle up; no token refresh. -/
def statusRoute (cfg : Config) (st : AppState) (enumCands : List Cand)
    (fb : Cand) (ienv : Nat → TrialOutcome) (env : CmdEnv) : RouteOut SResp :=
  let e := ensureInitialized cfg st enumCands fb ienv
  if !e.ok then ⟨.initErr e.msg, [], e.st⟩
  else if !env.updateOk then ⟨.failed "Failed to fetch status", [.updateState], e.st⟩
  else
    match env.vehicle with
    | none => ⟨.notFound (vidOf e.st), [.updateState], e.st⟩
    | some _ => ⟨.okTag "status", [.updateState], e.st⟩

/-- `/lock_car` (`main.py` lines 225-237). -/
def lockRoute (cfg : Config) (st : AppState) (enumCands : List Cand)
    (fb : Cand) (ienv : Nat → TrialOutcome) (env : CmdEnv) : RouteOut SResp :=
  let e := ensureInitialized cfg st enumCands fb ienv
  if !e.ok then ⟨.initErr e.msg, [], e.st⟩
  else if !env.refreshOk then ⟨.failed "Lock failed", [.refreshToken], e.st⟩
  else if !env.updateOk then
    ⟨.failed "Lock failed", [.refreshToken, .updateState], e.st⟩
  else
    match env.cmd with
    | some _ =>
        ⟨.failed "Lock failed",
         [.refreshToken, .updateState, .lockCall (vidOf e.st)], e.st⟩
    | none =>
        ⟨.okTag "locked",
         [.refreshToken, .updateState, .lockCall (vidOf e.st)], e.st⟩

/-- `/unlock_car` (`main.py` lines 240-252). -/
def unlockRoute (cfg : Config) (st : AppState) (enumCands : List Cand)
    (fb : Cand) (ienv : Nat → TrialOutcome) (env : CmdEnv) : RouteOut SResp :=
  let e := ensureInitialized cfg st enumCands fb ienv
  if !e.ok then ⟨.initErr e.msg, [], e.st⟩
  else if !env.refreshOk then ⟨.failed "Unlock failed", [.refreshToken], e.st⟩
  else if !env.updateOk then
    ⟨.failed "Unlock failed", [.refreshToken, .updateState], e.st⟩
  else
    match env.cmd with
    | some _ =>
        ⟨.failed "Unlock failed",
         [.refreshToken, .updateState, .unlockCall (vidOf e.st)], e.st⟩
    | none =>
        ⟨.okTag "unlocked",
         [.refreshToken, .updateState, .unlockCall (vidOf e.st)], e.st⟩

/-- `/stop_climate` (`main.py` lines 406-417): refreshes the token and
issues the stop primitive; no state update. -/
def stopRoute (cfg : Config) (st : AppState) (enumCands : List Cand)
    (fb : Cand) (ienv : Nat → TrialOutcome) (env : CmdEnv) : RouteOut SResp :=
  let e := ensureInitialized cfg st enumCands fb ienv
  if !e.ok then ⟨.initErr e.msg, [], e.st⟩
  else if !env.refreshOk then
    ⟨.failed "Stop climate failed", [.refreshToken], e.st⟩
  else
    match env.cmd with
    | some _ =>
        ⟨.failed "Stop climate failed",
         [.refreshToken, .stopClimateCall (vidOf e.st)], e.st⟩
    | none =>
        ⟨.okTag "climate_stopped",
         [.refreshToken, .stopClimateCall (vidOf e.st)], e.st⟩

/-- Result of `/debug/init`. -/
structure DebugInitOut where
  ok : Bool
  init_error : Option String
  st : AppState
  trials : Nat
deriving Repr, DecidableEq

/-- `/debug/init` (`main.py` lines 158-179): discards the cached manager
and failure, then runs a fresh full initialization. -/
def debugInitRoute (cfg : Config) (st : AppState) (enumCands : List Cand)
    (fb : Cand) (ienv : Nat → TrialOutcome) : DebugInitOut :=
  let st0 := { st with vehicle_manager := none, init_error := none }
  let r := initVehicleManager cfg st0 enumCands fb ienv
  ⟨r.st.vehicle_manager.isSome,
   if r.st.vehicle_manager.isSome then none else r.st.init_error,
   r.st, r.trials⟩

/-- The options objects passed to remote start-climate calls, in order. -/
def startOptsOf (cs : List Call) : List COpts :=
  cs.filterMap fun c =>
    match c with
    | .startClimateCall _ o => some o
    | _ => none

/-! ## Shared concrete instances for witnesses and counterexamples -/

/-- A fully-populated credential configuration. -/
def cfgOK : Config := ⟨some "user", some "pass", some "1234"⟩

/-- Globals with a cached manager and a configured vehicle id. -/
def stReady : AppState := ⟨some ⟨["V"]⟩, none, some "V"⟩

/-- Globals before any initialization. -/
def stEmpty : AppState := ⟨none, none, some "V"⟩

/-- A trial environment that always authenticates to an empty fleet. -/
def ienvEmptyFleet : Nat → TrialOutcome := fun _ => .auth []

/-- A trial environment that always authenticates to one vehicle. -/
def ienvOneVehicle : Nat → TrialOutcome := fun _ => .auth ["V"]

/-- A vehicle exposing none of the probed attributes. -/
def vAllNone : Vehicle :=
  ⟨none, none, none, none, none, none, none, none, none, none, none, none, none⟩

/-- A vehicle reporting only `is_locked = False`. -/
def vUnlocked : Vehicle :=
  ⟨some false, none, none, none, none, none, none, none, none, none, none, none, none⟩

/-- A vehicle reporting only `hood_open = True`. -/
def vHoodOpen : Vehicle :=
  ⟨none, none, none, some true, none, none, none, none, none, none, none, none, none⟩

/-- The all-`None` snapshot. -/
def snapAllNone : Snap := ⟨none, none, none, none, none, none⟩

/-! ## Helper lemmas -/

/-- With a cached manager, `ensure_initialized` is a pure cache hit:
no trial is performed and the globals are untouched. -/
theorem ensureInitialized_cached (cfg : Config) (st : AppState)
    (enumCands : List Cand) (fb : Cand) (ienv : Nat → TrialOutcome) (vm : VM)
    (h : st.vehicle_manager = some vm) :
    ensureInitialized cfg st enumCands fb ienv = ⟨true, "ok", st, 0⟩ := by
  simp [ensureInitialized, initVehicleManager, h]

/-- Exhausting the retry loop on trials that all authenticate to an
empty fleet fails with the wrapped no-vehicles message. -/
theorem runTrialList_auth_nil : ∀ (ts : List TrialOutcome) (e : Option String),
    (∀ t ∈ ts, t = TrialOutcome.auth []) →
    runTrialList ts e =
      (none, (if ts.length = 0 then e else some noVehiclesMsg), ts.length)
| [], e, _ => by simp [runTrialList]
| (t :: ts), e, h => by
    have ht : t = .auth [] := h t (by simp)
    subst ht
    have ih := runTrialList_auth_nil ts (some noVehiclesMsg)
      (fun u hu => h u (by simp [hu]))
    simp only [runTrialList, ih]
    by_cases hz : ts.length = 0 <;> simp [hz]

/-! ## C4: missing credentials -/

/-- C4: for every credential configuration missing at least one required
field, `ensure_initialized` (with no cached handle) returns a failure
whose message names every missing field — membership in the listed
fields is equivalent to that field being absent — and performs zero
remote trials. -/
theorem ensure_config_error_lists_all (cfg : Config) (st : AppState)
    (enumCands : List Cand) (fb : Cand) (ienv : Nat → TrialOutcome)
    (h0 : st.vehicle_manager = none) (h : missingVars cfg ≠ []) :
    (ensureInitialized cfg st enumCands fb ienv).ok = false ∧
    (ensureInitialized cfg st enumCands fb ienv).msg =
      "Missing required env vars: " ++ String.intercalate ", " (missingVars cfg) ∧
    (ensureInitialized cfg st enumCands fb ienv).trials = 0 ∧
    (truthyStr cfg.username = false ↔ "KIA_USERNAME" ∈ missingVars cfg) ∧
    (truthyStr cfg.password = false ↔ "KIA_PASSWORD" ∈ missingVars cfg) ∧
    (truthyStr cfg.pin = false ↔ "KIA_PIN" ∈ missingVars cfg) := by
  cases hu : truthyStr cfg.username <;> cases hp : truthyStr cfg.password <;>
    cases hn : truthyStr cfg.pin <;>
    simp_all [ensureInitialized, initVehicleManager, missingVars, orElsePy, h0] <;>
    decide

/-- C4 witness: a configuration missing `KIA_PASSWORD` and `KIA_PIN`. -/
theorem ensure_config_error_lists_all_witness :
    (ensureInitialized ⟨some "user", none, some ""⟩ stEmpty [] (3, 1) ienvOneVehicle).ok = false ∧
    (ensureInitialized ⟨some "user", none, some ""⟩ stEmpty [] (3, 1) ienvOneVehicle).msg =
      "Missing required env vars: " ++
        String.intercalate ", " (missingVars ⟨some "user", none, some ""⟩) ∧
    (ensureInitialized ⟨some "user", none, some ""⟩ stEmpty [] (3, 1) ienvOneVehicle).trials = 0 ∧
    (truthyStr (some "") = false ↔ "KIA_PIN" ∈ missingVars ⟨some "user", none, some ""⟩) := by
  have h := ensure_config_error_lists_all ⟨some "user", none, some ""⟩ stEmpty [] (3, 1)
    ienvOneVehicle (by decide) (by decide)
  exact ⟨h.1, h.2.1, h.2.2.1, h.2.2.2.2.2⟩

/-! ## C5: idempotence of the readiness gate -/

/-- C5: with a cached handle, `ensure_initialized` is a cache hit: it
returns `ok` at once, leaves the globals untouched, and two consecutive
calls perform zero remote trials in total (hence at most one remote
round-trip). -/
theorem ensure_idempotent_cached (cfg : Config) (st : AppState)
    (enumCands : List Cand) (fb : Cand) (ienv : Nat → TrialOutcome) (vm : VM)
    (h : st.vehicle_manager = some vm) :
    ensureInitialized cfg st enumCands fb ienv = ⟨true, "ok", st, 0⟩ ∧
    ensureInitialized cfg (ensureInitialized cfg st enumCands fb ienv).st
      enumCands fb ienv = ⟨true, "ok", st, 0⟩ ∧
    (ensureInitialized cfg st enumCands fb ienv).trials +
      (ensureInitialized cfg (ensureInitialized cfg st enumCands fb ienv).st
        enumCands fb ienv).trials ≤ 1 := by
  have h1 := ensureInitialized_cached cfg st enumCands fb ienv vm h
  rw [h1]
  have h2 := ensureInitialized_cached cfg st enumCands fb ienv vm h
  rw [h2]
  exact ⟨rfl, rfl, by simp⟩

/-- C5 witness: the cached state `stReady`. -/
theorem ensure_idempotent_cached_witness :
    ensureInitialized cfgOK stReady [] (3, 1) ienvOneVehicle =
      ⟨true, "ok", stReady, 0⟩ ∧
    (ensureInitialized cfgOK stReady [] (3, 1) ienvOneVehicle).trials +
      (ensureInitialized cfgOK
        (ensureInitialized cfgOK stReady [] (3, 1) ienvOneVehicle).st
        [] (3, 1) ienvOneVehicle).trials ≤ 1 := by
  have h := ensure_idempotent_cached cfgOK stReady [] (3, 1) ienvOneVehicle
    ⟨["V"]⟩ (by decide)
  exact ⟨h.1, h.2.2⟩

/-! ## C1: empty fleet after successful authentication -/

/-- C1 counterexample: with one region/brand candidate and every trial
authenticating to an empty fleet, the initialization performs 2 trials —
the empty-fleet failure IS retried by the retry loop — and the reported
reason is the wrapped message, not the verbatim no-vehicles message. -/
theorem init_no_vehicles_claim_cex :
    (ensureInitialized cfgOK stEmpty [] (3, 1) ienvEmptyFleet).trials = 2 ∧
    (ensureInitialized cfgOK stEmpty [] (3, 1) ienvEmptyFleet).msg ≠ noVehiclesMsg ∧
    (ensureInitialized cfgOK stEmpty [] (3, 1) ienvEmptyFleet).msg =
      "Initialization failed after retries: " ++ noVehiclesMsg := by
  decide

/-- C1 amended: when authentication succeeds but the fleet is empty, the
raised no-vehicles error is caught by the retry loop like any other
failure: all `2 × (number of candidates)` trials are performed, no
manager is cached, and the cached reason is the no-vehicles message
wrapped in the retries-exhausted prefix (not verbatim). -/
theorem init_no_vehicles_retried (cfg : Config) (st : AppState)
    (enumCands : List Cand) (fb : Cand)
    (h0 : st.vehicle_manager = none) (hc : missingVars cfg = []) :
    (initVehicleManager cfg st enumCands fb ienvEmptyFleet).trials =
      2 * (enumCands.length + 1) ∧
    2 ≤ (initVehicleManager cfg st enumCands fb ienvEmptyFleet).trials ∧
    (initVehicleManager cfg st enumCands fb ienvEmptyFleet).st =
      { st with init_error := some ("Initialization failed after retries: " ++ noVehiclesMsg) } := by
  have hmem : ∀ t ∈ (List.range (2 * (resolveRegionBrand enumCands fb).length)).map
      ienvEmptyFleet, t = TrialOutcome.auth [] := by
    intro t ht
    rcases List.mem_map.mp ht with ⟨x, _, hx⟩
    rw [← hx]; rfl
  have hrun := runTrialList_auth_nil _ none hmem
  have hlen : ((List.range (2 * (resolveRegionBrand enumCands fb).length)).map
      ienvEmptyFleet).length = 2 * (enumCands.length + 1) := by
    simp [resolveRegionBrand]
  rw [hlen, if_neg (by omega)] at hrun
  unfold initVehicleManager
  rw [h0, hc]
  simp only [Option.isSome_none, List.isEmpty_nil, Bool.not_true, Bool.false_eq_true,
    if_false, hrun]
  refine ⟨by trivial, by omega, by simp [strOfLastErr]⟩

/-- C1 amended witness: the concrete empty-fleet run. -/
theorem init_no_vehicles_retried_witness :
    (initVehicleManager cfgOK stEmpty [] (3, 1) ienvEmptyFleet).trials = 2 ∧
    (initVehicleManager cfgOK stEmpty [] (3, 1) ienvEmptyFleet).st =
      { stEmpty with init_error := some ("Initialization failed after retries: " ++ noVehiclesMsg) } := by
  have h := init_no_vehicles_retried cfgOK stEmpty [] (3, 1) (by decide) (by decide)
  exact ⟨h.1, h.2.2⟩

/-! ## C9: the precondition check and unknown flags -/

/-- Helper: membership in a conditional singleton. -/
theorem mem_if_singleton {b : Bool} {x c : String}
    (h : c ∈ (if b then [x] else [])) : b = true ∧ c = x := by
  cases b <;> simp_all

/-- Helper: membership in an inverted conditional singleton. -/
theorem mem_if_singleton_neg {b : Bool} {x c : String}
    (h : c ∈ (if b then [] else [x])) : b = false ∧ c = x := by
  cases b <;> simp_all

/-- A violation message is justified by the snapshot it was computed
from: the corresponding flag is definitely adverse. -/
def adverse (s : Snap) (c : String) : Prop :=
  (c = "Doors must be locked" ∧ s.locked = some false) ∨
  (c = "All doors must be closed" ∧ s.any_door_open = some true) ∨
  (c = "Hood must be closed" ∧ s.hood_open = some true) ∨
  (c = "Trunk/tailgate must be closed" ∧ s.trunk_open = some true) ∨
  (c = "Ignition/ACC must be off" ∧ s.ignition_on = some true) ∨
  (c = "Transmission must be in Park" ∧ gearAcceptable s.gear = false)

/-- C9: every violation `_preflight` records is justified by a
definitely-adverse flag of the original snapshot (locked exactly false,
an open/ignition flag exactly true, or a concrete non-Park gear), and a
vehicle exposing none of the probed attributes yields the all-`None`
snapshot, which passes the check with an empty violation list. -/
theorem preflight_adverse_only :
    (∀ (s : Snap) (b : Bool) (c : String),
      c ∈ (preflight s b).missing → adverse s c) ∧
    vehicleStateSnapshot vAllNone = snapAllNone ∧
    (∀ b : Bool, preflight snapAllNone b = ⟨[], snapAllNone, false⟩) := by
  refine ⟨?_, rfl, fun b => rfl⟩
  intro s b c h
  simp only [preflight, List.mem_append] at h
  by_cases hb : ((s.locked == some false) && b) = true
  · rw [if_pos hb] at h
    rcases h with ((((h | h) | h) | h) | h) | h
    · rcases mem_if_singleton h with ⟨hc, rfl⟩
      simp at hc
    · rcases mem_if_singleton h with ⟨hc, rfl⟩
      simp only [beq_iff_eq] at hc
      simp [adverse, hc]
    · rcases mem_if_singleton h with ⟨hc, rfl⟩
      simp only [beq_iff_eq] at hc
      simp [adverse, hc]
    · rcases mem_if_singleton h with ⟨hc, rfl⟩
      simp only [beq_iff_eq] at hc
      simp [adverse, hc]
    · rcases mem_if_singleton h with ⟨hc, rfl⟩
      simp only [beq_iff_eq] at hc
      simp [adverse, hc]
    · rcases mem_if_singleton_neg h with ⟨hc, rfl⟩
      simp [adverse, hc]
  · rw [if_neg hb] at h
    rcases h with ((((h | h) | h) | h) | h) | h
    · rcases mem_if_singleton h with ⟨hc, rfl⟩
      simp only [beq_iff_eq] at hc
      simp [adverse, hc]
    · rcases mem_if_singleton h with ⟨hc, rfl⟩
      simp only [beq_iff_eq] at hc
      simp [adverse, hc]
    · rcases mem_if_singleton h with ⟨hc, rfl⟩
      simp only [beq_iff_eq] at hc
      simp [adverse, hc]
    · rcases mem_if_singleton h with ⟨hc, rfl⟩
      simp only [beq_iff_eq] at hc
      simp [adverse, hc]
    · rcases mem_if_singleton h with ⟨hc, rfl⟩
      simp only [beq_iff_eq] at hc
      simp [adverse, hc]
    · rcases mem_if_singleton_neg h with ⟨hc, rfl⟩
      simp [adverse, hc]

/-- C9 witness: a snapshot whose only adverse flag is `locked = False`,
with the best-effort lock failing. -/
theorem preflight_adverse_only_witness :
    "Doors must be locked" ∈
      (preflight ⟨some false, none, none, none, none, none⟩ false).missing ∧
    adverse ⟨some false, none, none, none, none, none⟩ "Doors must be locked" :=
  ⟨by decide, preflight_adverse_only.1 ⟨some false, none, none, none, none, none⟩
    false "Doors must be locked" (by decide)⟩

/-! ## C7: open hood blocks the remote start -/

/-- When the snapshot reports the hood open, the hood violation is
recorded and the violation list is nonempty. -/
theorem preflight_hood_mem (s : Snap) (b : Bool) (h : s.hood_open = some true) :
    "Hood must be closed" ∈ (preflight s b).missing ∧
    (preflight s b).missing.isEmpty = false := by
  have hmem : "Hood must be closed" ∈ (preflight s b).missing := by
    simp only [preflight, List.mem_append]
    by_cases hb : ((s.locked == some false) && b) = true
    · rw [if_pos hb]
      left; left; left; right
      simp [h]
    · rw [if_neg hb]
      left; left; left; right
      simp [h]
  refine ⟨hmem, ?_⟩
  cases hM : (preflight s b).missing with
  | nil => exact absurd (hM ▸ hmem) (List.not_mem_nil _)
  | cons a l => rfl

/-- C7: a start-climate request without `force` whose snapshot reports
the hood open gets the precondition response, whose violation list
includes the hood condition, and no remote start-climate call is made. -/
theorem start_climate_hood_blocks (cfg : Config) (st : AppState)
    (enumCands : List Cand) (fb : Cand) (ienv : Nat → TrialOutcome)
    (body : Body) (env : ClimateEnv) (vm : VM) (v : Vehicle)
    (hm : st.vehicle_manager = some vm) (hf : body.force = false)
    (hr : env.refreshOk = true) (hu : env.updateOk = true)
    (hv : env.vehicle = some v)
    (hh : (vehicleStateSnapshot v).hood_open = some true) :
    ((startClimateRoute cfg st enumCands fb ienv body env).resp =
      CResp.precond (preflight (vehicleStateSnapshot v) env.lockOk).missing
        (preflight (vehicleStateSnapshot v) env.lockOk).snap) ∧
    "Hood must be closed" ∈ (preflight (vehicleStateSnapshot v) env.lockOk).missing ∧
    startOptsOf (startClimateRoute cfg st enumCands fb ienv body env).calls = [] := by
  have he := ensureInitialized_cached cfg st enumCands fb ienv vm hm
  have hp := preflight_hood_mem (vehicleStateSnapshot v) env.lockOk hh
  refine ⟨?_, hp.1, ?_⟩
  · unfold startClimateRoute
    rw [he]
    simp [hr, hu, hv, hf, hp.2]
  · unfold startClimateRoute
    rw [he]
    cases hA : (preflight (vehicleStateSnapshot v) env.lockOk).lockAttempted <;>
      simp [hr, hu, hv, hf, hp.2, hA, startOptsOf]

/-- C7 witness: the hood-open vehicle, all other flags unknown. -/
theorem start_climate_hood_blocks_witness :
    ((startClimateRoute cfgOK stReady [] (3, 1) ienvOneVehicle
        ⟨.intVal 10, false, .absent, false⟩
        ⟨true, true, true, some vHoodOpen, true, true, true, none, none⟩).resp =
      CResp.precond
        (preflight (vehicleStateSnapshot vHoodOpen) true).missing
        (preflight (vehicleStateSnapshot vHoodOpen) true).snap) ∧
    "Hood must be closed" ∈ (preflight (vehicleStateSnapshot vHoodOpen) true).missing ∧
    startOptsOf (startClimateRoute cfgOK stReady [] (3, 1) ienvOneVehicle
      ⟨.intVal 10, false, .absent, false⟩
      ⟨true, true, true, some vHoodOpen, true, true, true, none, none⟩).calls = [] :=
  start_climate_hood_blocks cfgOK stReady [] (3, 1) ienvOneVehicle
    ⟨.intVal 10, false, .absent, false⟩
    ⟨true, true, true, some vHoodOpen, true, true, true, none, none⟩
    ⟨["V"]⟩ vHoodOpen (by decide) rfl rfl rfl rfl (by decide)

/-! ## C6: the duration clamp -/

/-- The duration of the built options is the one passed in, under either
constructor shape. -/
theorem dur_buildOpts (nc ta : Bool) (d : Int) (df : Bool) (t : Option Int) :
    (buildOpts nc ta d df t).dur = d := by
  cases nc <;> rfl

/-- Enumeration of the start-climate calls a request can issue: none, the
primary options alone, or the primary options followed by the fixed
fallback options. -/
theorem startOptsOf_route_cases (cfg : Config) (st : AppState)
    (enumCands : List Cand) (fb : Cand) (ienv : Nat → TrialOutcome)
    (body : Body) (env : ClimateEnv) :
    startOptsOf (startClimateRoute cfg st enumCands fb ienv body env).calls = [] ∨
    startOptsOf (startClimateRoute cfg st enumCands fb ienv body env).calls =
      [buildOpts env.newCtor env.tempAttr (clampDuration (parseDuration body.duration))
        body.defrost (tempOf body env.unitsF)] ∨
    startOptsOf (startClimateRoute cfg st enumCands fb ienv body env).calls =
      [buildOpts env.newCtor env.tempAttr (clampDuration (parseDuration body.duration))
        body.defrost (tempOf body env.unitsF),
       COpts.oldStyle 5 false (applyTemperature env.tempAttr (tempOf body env.unitsF))] := by
  simp only [startClimateRoute]
  split
  · left; rfl
  · split
    · left; rfl
    · split
      · left; rfl
      · split
        · left; rfl
        · split
          · left
            split <;> simp [startOptsOf]
          · split
            · right; left
              split <;> simp [startOptsOf]
            · split
              · right; right
                split <;> simp [startOptsOf]
              · right; right
                split <;> simp [startOptsOf]

/-- C6: the requested duration is clamped into `[1, 30]` before being
sent — `99` is sent as `30` and `0` as `1`; every options object handed
to a remote start call carries an in-range duration, and the primary one
carries exactly the clamp of the parsed request duration. -/
theorem start_climate_duration_clamped (cfg : Config) (st : AppState)
    (enumCands : List Cand) (fb : Cand) (ienv : Nat → TrialOutcome)
    (body : Body) (env : ClimateEnv) :
    clampDuration 99 = 30 ∧ clampDuration 0 = 1 ∧
    (∀ d : Int, 1 ≤ clampDuration d ∧ clampDuration d ≤ 30) ∧
    (∀ o : COpts,
      (startOptsOf (startClimateRoute cfg st enumCands fb ienv body env).calls).head? =
        some o → o.dur = clampDuration (parseDuration body.duration)) ∧
    (∀ o ∈ startOptsOf (startClimateRoute cfg st enumCands fb ienv body env).calls,
      1 ≤ o.dur ∧ o.dur ≤ 30) := by
  have hcl : ∀ d : Int, 1 ≤ clampDuration d ∧ clampDuration d ≤ 30 := by
    intro d
    unfold clampDuration
    constructor
    · exact le_max_left 1 (min d 30)
    · rcases le_total d 30 with hd | hd
      · rw [min_eq_left hd]
        rcases le_total 1 d with h1 | h1
        · rw [max_eq_right h1]; exact hd
        · rw [max_eq_left h1]; omega
      · rw [min_eq_right hd]; simp
  refine ⟨by decide, by decide, hcl, ?_, ?_⟩ <;>
    rcases startOptsOf_route_cases cfg st enumCands fb ienv body env with hc | hc | hc <;>
    rw [hc]
  · intro o ho
    simp at ho
  · intro o ho
    simp at ho
    rw [← ho, dur_buildOpts]
  · intro o ho
    simp at ho
    rw [← ho, dur_buildOpts]
  · intro o ho
    simp at ho
  · intro o ho
    simp at ho
    rw [ho, dur_buildOpts]
    exact hcl _
  · intro o ho
    simp at ho
    rcases ho with ho | ho
    · rw [ho, dur_buildOpts]
      exact hcl _
    · rw [ho]
      constructor <;> norm_num [COpts.dur]

/-- C6 witness: a forced request with `duration = 99` sends `30`. -/
theorem start_climate_duration_clamped_witness :
    (COpts.newStyle 30 false (some 72)).dur =
      clampDuration (parseDuration (DurField.intVal 99)) ∧
    (1 ≤ (COpts.newStyle 30 false (some 72)).dur ∧
      (COpts.newStyle 30 false (some 72)).dur ≤ 30) :=
  ⟨(start_climate_duration_clamped cfgOK stReady [] (3, 1) ienvOneVehicle
      ⟨.intVal 99, false, .absent, true⟩
      ⟨true, true, true, some vAllNone, true, true, true, none, none⟩).2.2.2.1
      (COpts.newStyle 30 false (some 72)) (by decide),
   (start_climate_duration_clamped cfgOK stReady [] (3, 1) ienvOneVehicle
      ⟨.intVal 99, false, .absent, true⟩
      ⟨true, true, true, some vAllNone, true, true, true, none, none⟩).2.2.2.2
      (COpts.newStyle 30 false (some 72)) (by decide)⟩

/-! ## C10: missing or unparsable duration defaults to 10 -/

/-- C10: a request body whose `duration` is absent, or whose value
`int(...)` cannot convert, behaves exactly like an explicit
`duration = 10`: parsing silently defaults to 10 before the clamp, and
the whole request proceeds identically (no failure path exists for a
bad duration). -/
theorem start_climate_duration_default (cfg : Config) (st : AppState)
    (enumCands : List Cand) (fb : Cand) (ienv : Nat → TrialOutcome)
    (body : Body) (env : ClimateEnv) :
    parseDuration DurField.absent = 10 ∧ parseDuration DurField.unparsable = 10 ∧
    startClimateRoute cfg st enumCands fb ienv
        { body with duration := DurField.absent } env =
      startClimateRoute cfg st enumCands fb ienv
        { body with duration := DurField.intVal 10 } env ∧
    startClimateRoute cfg st enumCands fb ienv
        { body with duration := DurField.unparsable } env =
      startClimateRoute cfg st enumCands fb ienv
        { body with duration := DurField.intVal 10 } env :=
  ⟨rfl, rfl, rfl, rfl⟩

/-! ## C8: failed commands leave the cached handle untouched -/

/-- C8: with a cached manager, every command handler — status, lock,
unlock, stop climate, start climate — leaves the module globals (and in
particular the cached manager) untouched, whatever the remote outcomes;
only `/debug/init` discards the cached manager, by clearing it and
re-running the full initialization. -/
theorem commands_preserve_cached_handle (cfg : Config) (st : AppState)
    (enumCands : List Cand) (fb : Cand) (ienv : Nat → TrialOutcome) (vm : VM)
    (h : st.vehicle_manager = some vm) :
    (∀ env : CmdEnv, (statusRoute cfg st enumCands fb ienv env).st = st) ∧
    (∀ env : CmdEnv, (lockRoute cfg st enumCands fb ienv env).st = st) ∧
    (∀ env : CmdEnv, (unlockRoute cfg st enumCands fb ienv env).st = st) ∧
    (∀ env : CmdEnv, (stopRoute cfg st enumCands fb ienv env).st = st) ∧
    (∀ (body : Body) (env : ClimateEnv),
      (startClimateRoute cfg st enumCands fb ienv body env).st = st) ∧
    (∀ ienv2 : Nat → TrialOutcome,
      (debugInitRoute cfg st enumCands fb ienv2).st =
        (initVehicleManager cfg
          { st with vehicle_manager := none, init_error := none }
          enumCands fb ienv2).st) := by
  have he := ensureInitialized_cached cfg st enumCands fb ienv vm h
  refine ⟨?_, ?_, ?_, ?_, ?_, fun ienv2 => rfl⟩
  · intro env
    obtain ⟨r, u, veh, cmd⟩ := env
    cases r <;> cases u <;> cases veh <;> cases cmd <;> simp [statusRoute, he]
  · intro env
    obtain ⟨r, u, veh, cmd⟩ := env
    cases r <;> cases u <;> cases veh <;> cases cmd <;> simp [lockRoute, he]
  · intro env
    obtain ⟨r, u, veh, cmd⟩ := env
    cases r <;> cases u <;> cases veh <;> cases cmd <;> simp [unlockRoute, he]
  · intro env
    obtain ⟨r, u, veh, cmd⟩ := env
    cases r <;> cases u <;> cases veh <;> cases cmd <;> simp [stopRoute, he]
  · intro body env
    obtain ⟨uF, r, u, veh, lk, nc, ta, p, f⟩ := env
    cases r <;> cases u <;> cases veh <;> cases p <;> cases f <;>
      simp [startClimateRoute, he] <;>
      (try split) <;> simp

/-- C8 witness: a failing lock command against the cached state. -/
theorem commands_preserve_cached_handle_witness :
    (lockRoute cfgOK stReady [] (3, 1) ienvOneVehicle
      ⟨true, true, some vAllNone, some ⟨"boom", none⟩⟩).st = stReady :=
  (commands_preserve_cached_handle cfgOK stReady [] (3, 1) ienvOneVehicle
    ⟨["V"]⟩ (by decide)).2.1 ⟨true, true, some vAllNone, some ⟨"boom", none⟩⟩

/-! ## C3: the best-effort lock and the absent re-read -/

/-- C3 counterexample: with an unlocked vehicle and a successful
best-effort lock, the request performs exactly one state read (the
`updateState` before the lock) — no re-read after the lock call — and
the preconditions are re-evaluated against the original snapshot with
only its `locked` entry overwritten to `True`. -/
theorem start_climate_unlocked_claim_cex :
    (startClimateRoute cfgOK stReady [] (3, 1) ienvOneVehicle
        ⟨.intVal 10, false, .absent, false⟩
        ⟨true, true, true, some vUnlocked, true, true, true, none, none⟩).calls =
      [Call.refreshToken, Call.updateState, Call.lockCall "V",
       Call.startClimateCall "V" (COpts.newStyle 10 false (some 72))] ∧
    (startClimateRoute cfgOK stReady [] (3, 1) ienvOneVehicle
        ⟨.intVal 10, false, .absent, false⟩
        ⟨true, true, true, some vUnlocked, true, true, true, none, none⟩).calls.count
      Call.updateState = 1 ∧
    (preflight (vehicleStateSnapshot vUnlocked) true).snap =
      { vehicleStateSnapshot vUnlocked with locked := some true } := by
  decide

/-- C3 amended: a start-climate request without `force` whose snapshot
reports the vehicle unlocked issues exactly one best-effort lock call,
whose failure is swallowed; no re-read of vehicle state occurs (the
single state update precedes the lock), and the preconditions are then
evaluated against the original snapshot with only its `locked` entry
overwritten to `True` when the lock succeeded. -/
theorem start_climate_unlocked_best_effort_lock (cfg : Config) (st : AppState)
    (enumCands : List Cand) (fb : Cand) (ienv : Nat → TrialOutcome)
    (body : Body) (env : ClimateEnv) (vm : VM) (v : Vehicle)
    (hm : st.vehicle_manager = some vm) (hf : body.force = false)
    (hr : env.refreshOk = true) (hu : env.updateOk = true)
    (hv : env.vehicle = some v)
    (hl : (vehicleStateSnapshot v).locked = some false) :
    ((startClimateRoute cfg st enumCands fb ienv body env).calls.count
      (Call.lockCall (vidOf st)) = 1) ∧
    ((startClimateRoute cfg st enumCands fb ienv body env).calls.count
      Call.updateState = 1) ∧
    ((startClimateRoute cfg st enumCands fb ienv body env).calls.take 3 =
      [Call.refreshToken, Call.updateState, Call.lockCall (vidOf st)]) ∧
    ((preflight (vehicleStateSnapshot v) env.lockOk).snap =
      if env.lockOk then { vehicleStateSnapshot v with locked := some true }
      else vehicleStateSnapshot v) ∧
    (∀ (m : List String) (sn : Snap),
      (startClimateRoute cfg st enumCands fb ienv body env).resp =
        CResp.precond m sn →
      m = (preflight (vehicleStateSnapshot v) env.lockOk).missing ∧
      sn = (preflight (vehicleStateSnapshot v) env.lockOk).snap) := by
  have he := ensureInitialized_cached cfg st enumCands fb ienv vm hm
  have hA : (preflight (vehicleStateSnapshot v) env.lockOk).lockAttempted = true := by
    simp [preflight, hl]
  have hsnap : (preflight (vehicleStateSnapshot v) env.lockOk).snap =
      if env.lockOk then { vehicleStateSnapshot v with locked := some true }
      else vehicleStateSnapshot v := by
    cases hk : env.lockOk <;> simp [preflight, hl, hk]
  refine ⟨?_, ?_, ?_, hsnap, ?_⟩
  · cases hp : env.primary <;> cases hfb : env.fallback <;>
      simp only [startClimateRoute, he, hr, hu, hv, hf, hA, hp, hfb, Bool.not_true,
        Bool.not_false, Bool.false_eq_true, if_false, if_true, Bool.true_and] <;>
      split <;>
      simp [List.count_append, List.count_cons]
  · cases hp : env.primary <;> cases hfb : env.fallback <;>
      simp only [startClimateRoute, he, hr, hu, hv, hf, hA, hp, hfb, Bool.not_true,
        Bool.not_false, Bool.false_eq_true, if_false, if_true, Bool.true_and] <;>
      split <;>
      simp [List.count_append, List.count_cons]
  · cases hp : env.primary <;> cases hfb : env.fallback <;>
      simp only [startClimateRoute, he, hr, hu, hv, hf, hA, hp, hfb, Bool.not_true,
        Bool.not_false, Bool.false_eq_true, if_false, if_true, Bool.true_and] <;>
      split <;>
      simp [List.take]
  · intro m sn hresp
    revert hresp
    simp only [startClimateRoute, he]
    simp only [hr, hu, hv, hf, hA]
    simp only [Bool.not_true, Bool.not_false, Bool.false_eq_true, if_false,
      if_true, Bool.true_and]
    split
    · intro hresp
      simp only [CResp.precond.injEq] at hresp
      exact ⟨hresp.1.symm, hresp.2.symm⟩
    · split
      · intro hresp
        simp at hresp
      · split <;> intro hresp <;> simp at hresp

/-- C3 amended witness: unlocked vehicle, failing best-effort lock. -/
theorem start_climate_unlocked_best_effort_lock_witness :
    ((startClimateRoute cfgOK stReady [] (3, 1) ienvOneVehicle
        ⟨.intVal 10, false, .absent, false⟩
        ⟨true, true, true, some vUnlocked, false, true, true, none, none⟩).calls.count
      (Call.lockCall (vidOf stReady)) = 1) ∧
    ["Doors must be locked"] =
      (preflight (vehicleStateSnapshot vUnlocked) false).missing :=
  ⟨(start_climate_unlocked_best_effort_lock cfgOK stReady [] (3, 1) ienvOneVehicle
      ⟨.intVal 10, false, .absent, false⟩
      ⟨true, true, true, some vUnlocked, false, true, true, none, none⟩
      ⟨["V"]⟩ vUnlocked (by decide) rfl rfl rfl rfl (by decide)).1,
   ((start_climate_unlocked_best_effort_lock cfgOK stReady [] (3, 1) ienvOneVehicle
      ⟨.intVal 10, false, .absent, false⟩
      ⟨true, true, true, some vUnlocked, false, true, true, none, none⟩
      ⟨["V"]⟩ vUnlocked (by decide) rfl rfl rfl rfl (by decide)).2.2.2.2
      ["Doors must be locked"] (vehicleStateSnapshot vUnlocked) (by decide)).1⟩

/-! ## C2: the fallback start-climate attempt -/

/-- C2 counterexample: with a requested (clamped) duration of 3, the
single fallback call uses the fixed duration 5 — not a shorter one —
and when both attempts carry response details, the final error reports
only the fallback detail, not both. -/
theorem start_climate_fallback_claim_cex :
    (startClimateRoute cfgOK stReady [] (3, 1) ienvOneVehicle
        ⟨.intVal 3, false, .absent, false⟩
        ⟨true, true, true, some vAllNone, true, true, true,
         some ⟨"boom1", some "d1"⟩, some ⟨"boom2", some "d2"⟩⟩) =
      ⟨CResp.cmdFail "d2" 3 false (some 72),
       [Call.refreshToken, Call.updateState,
        Call.startClimateCall "V" (COpts.newStyle 3 false (some 72)),
        Call.startClimateCall "V" (COpts.oldStyle 5 false (some 72))],
       stReady⟩ ∧
    ¬ (COpts.oldStyle 5 false (some 72)).dur <
        (COpts.newStyle 3 false (some 72)).dur ∧
    pickDetail ⟨"boom2", some "d2"⟩ ⟨"boom1", some "d1"⟩ = "d2" ∧
    "d2" ≠ "d1" := by
  decide

/-- C2 amended: when the primary start-climate call fails, exactly one
fallback call is issued, with the fixed conservative options (duration
5, defrost off, the same temperature re-applied when the options object
exposes a temperature attribute); if the fallback also fails, the
response is the command failure carrying a single detail — the fallback
response if present, else the primary response, else the fallback
message — together with the processed request parameters. -/
theorem start_climate_fallback_once (cfg : Config) (st : AppState)
    (enumCands : List Cand) (fb : Cand) (ienv : Nat → TrialOutcome)
    (body : Body) (env : ClimateEnv) (vm : VM) (v : Vehicle) (e1 : PyExc)
    (hm : st.vehicle_manager = some vm) (hr : env.refreshOk = true)
    (hu : env.updateOk = true) (hv : env.vehicle = some v)
    (hpre : body.force = true ∨
      (preflight (vehicleStateSnapshot v) env.lockOk).missing = [])
    (h1 : env.primary = some e1) :
    startOptsOf (startClimateRoute cfg st enumCands fb ienv body env).calls =
      [buildOpts env.newCtor env.tempAttr (clampDuration (parseDuration body.duration))
         body.defrost (tempOf body env.unitsF),
       COpts.oldStyle 5 false (applyTemperature env.tempAttr (tempOf body env.unitsF))] ∧
    (∀ e2 : PyExc, env.fallback = some e2 →
      (startClimateRoute cfg st enumCands fb ienv body env).resp =
        CResp.cmdFail (pickDetail e2 e1)
          (clampDuration (parseDuration body.duration)) body.defrost
          (tempOf body env.unitsF)) := by
  have he := ensureInitialized_cached cfg st enumCands fb ienv vm hm
  have hcond : (!body.force &&
      !(preflight (vehicleStateSnapshot v) env.lockOk).missing.isEmpty) = false := by
    rcases hpre with hfo | hmis
    · simp [hfo]
    · simp [hmis]
  constructor
  · cases hfb : env.fallback <;>
      simp only [startClimateRoute, he, hr, hu, hv, h1, hfb, hcond, Bool.not_true,
        Bool.not_false, Bool.false_eq_true, if_false, if_true] <;>
      split <;>
      simp [startOptsOf]
  · intro e2 h2
    simp only [startClimateRoute, he, hr, hu, hv, h1, h2, hcond, Bool.not_true,
      Bool.not_false, Bool.false_eq_true, if_false, if_true]

/-- C2 amended witness: a forced request with duration 7 whose two
start attempts both fail without response details. -/
theorem start_climate_fallback_once_witness :
    startOptsOf (startClimateRoute cfgOK stReady [] (3, 1) ienvOneVehicle
        ⟨.intVal 7, true, .absent, true⟩
        ⟨true, true, true, some vAllNone, true, false, true,
         some ⟨"p", none⟩, some ⟨"q", none⟩⟩).calls =
      [COpts.oldStyle 7 true (some 72), COpts.oldStyle 5 false (some 72)] ∧
    (startClimateRoute cfgOK stReady [] (3, 1) ienvOneVehicle
        ⟨.intVal 7, true, .absent, true⟩
        ⟨true, true, true, some vAllNone, true, false, true,
         some ⟨"p", none⟩, some ⟨"q", none⟩⟩).resp =
      CResp.cmdFail "q" 7 true (some 72) :=
  ⟨(start_climate_fallback_once cfgOK stReady [] (3, 1) ienvOneVehicle
      ⟨.intVal 7, true, .absent, true⟩
      ⟨true, true, true, some vAllNone, true, false, true,
       some ⟨"p", none⟩, some ⟨"q", none⟩⟩
      ⟨["V"]⟩ vAllNone ⟨"p", none⟩ (by decide) rfl rfl rfl (Or.inl rfl) rfl).1,
   (start_climate_fallback_once cfgOK stReady [] (3, 1) ienvOneVehicle
      ⟨.intVal 7, true, .absent, true⟩
      ⟨true, true, true, some vAllNone, true, false, true,
       some ⟨"p", none⟩, some ⟨"q", none⟩⟩
      ⟨["V"]⟩ vAllNone ⟨"p", none⟩ (by decide) rfl rfl rfl (Or.inl rfl) rfl).2
      ⟨"q", none⟩ rfl⟩
